import Mathlib

/-!
# Verification of the preCICE topology compiler

A shallow embedding of the topology-generation core of the repository
(`topology_generator/topology_schema.py`, `topology_generator/config_generator.py`,
`topology_generator/xml_to_topology.py`) together with proofs and refutations of
the specified properties.

Modelling conventions:
* Python floats are modelled as exact rationals (`ℚ`); the program only stores,
  serializes and compares these values, and Python's `str`/`float` round-trip is
  exact on floats, so stringification of numbers is modelled as the identity
  (attribute values carry a `Val.num` constructor).
* A Python function that raises is modelled with `Except String`/`Option`; the
  error string follows the source message.
* XML qualified tags are modelled as a (prefix, local-name) pair: the emitter
  writes literal strings of the form `prefix:local`, and the reader, after the
  out-of-scope serialize/parse step, sees `\x7bnamespace\x7dlocal` and strips it
  to `local` with `tag.split` — the pair keeps both components exact.
  An `ElementTree` path lookup (`find`, `findall`) compiles its path before
  looking at the document: every namespace prefix occurring in the path must
  be bound in the caller's namespace map, otherwise the call raises
  `SyntaxError: prefix p not found in prefix map` on every input.  The
  reader's map binds only `precice`, so its `data:`- and
  `coupling-scheme:`-prefixed searches raise on every document (their `|`
  unions are equally unsupported, but the unbound prefix is hit first); its
  unprefixed `.//`-paths compile, and a compiled `.//`-path matches every
  descendant whose tag is one of the listed alternatives (`findAllTags`,
  `findTag`).  The prefix check of path compilation is `pathCompiles`.
-/

namespace Controller

/-- `DataType` enum of `topology_schema.py`. -/
inductive DataType where
  | SCALAR
  | VECTOR
  | TENSOR
deriving DecidableEq, Repr

/-- `MappingType` enum of `topology_schema.py`. -/
inductive MappingType where
  | RBF
  | NEAREST_PROJECTION
  | CONSISTENT
  | CONSERVATIVE
deriving DecidableEq, Repr

/-- `CouplingSchemeType` enum of `topology_schema.py`. -/
inductive CouplingSchemeType where
  | SERIAL_EXPLICIT
  | SERIAL_IMPLICIT
  | PARALLEL_EXPLICIT
  | PARALLEL_IMPLICIT
deriving DecidableEq, Repr

/-- `DataConfig` of `topology_schema.py`: one exchanged quantity. -/
structure DataConfig where
  name : String
  type : DataType
deriving DecidableEq, Repr

/-- `MeshConfig` of `topology_schema.py`.  `dimensions` is an `int` field in the
source (bounds `1 ≤ d ≤ 3` are part of the schema check below); it is kept as a
rational because the document reader re-reads it through numeric parsing. -/
structure MeshConfig where
  name : String
  dimensions : ℚ
  data : List String
deriving DecidableEq, Repr

/-- One entry of `CouplingConfig.exchanges`, a `Dict[str, str]` in the source of
which only the keys `data`, `mesh`, `from`, `to` are ever accessed (always via
`.get`, so each key may be absent — hence `Option`). -/
structure Exchange where
  data : Option String
  mesh : Option String
  from_ : Option String
  to_ : Option String
deriving DecidableEq, Repr

/-- `ParticipantConfig` of `topology_schema.py`. -/
structure ParticipantConfig where
  name : String
  provides_mesh : String
  receives_meshes : List String
  read_data : List String
  write_data : List String
  mapping_type : MappingType
  mapping_constraint : String
deriving DecidableEq, Repr

/-- `CouplingConfig` of `topology_schema.py`. -/
structure CouplingConfig where
  type : CouplingSchemeType
  time_window_size : ℚ
  max_time : ℚ
  participants : List String
  exchanges : List Exchange
deriving DecidableEq, Repr

/-- `TopologyConfig` of `topology_schema.py`, the lifted canonical model. -/
structure TopologyConfig where
  name : String
  data : List DataConfig
  meshes : List MeshConfig
  participants : List ParticipantConfig
  coupling : CouplingConfig
deriving DecidableEq, Repr

/-! ## Schema layer (the pydantic validators of `topology_schema.py`)

Pydantic's parse-and-validate of an already well-shaped value amounts to running
the declared field validators; `schemaOk` collects them as a boolean
(accept / reject).  The uniqueness tests mirror the source's
`len(set(xs)) != len(xs)` via `xs.dedup.length ≠ xs.length`. -/

/-- `MeshConfig.validate_data_unique` plus the `Field(ge=1, le=3)` bound on
`dimensions` (an integer field in the source). -/
def MeshConfig.schemaOk (m : MeshConfig) : Bool :=
  1 ≤ m.dimensions && m.dimensions ≤ 3 && m.dimensions.den == 1
    && m.data.dedup.length == m.data.length

/-- `ParticipantConfig.validate_mesh_name` and
`ParticipantConfig.validate_data_consistency`: the source raises when
`provides_mesh` is empty, when `read_data` is empty, and when `write_data` is
empty (the validator is registered for both fields and fires on `not data`). -/
def ParticipantConfig.schemaOk (p : ParticipantConfig) : Bool :=
  p.provides_mesh ≠ "" && p.read_data ≠ [] && p.write_data ≠ []

/-- `CouplingConfig.validate_participants` plus the `Field(gt=0)` bounds on
`time_window_size` and `max_time`. -/
def CouplingConfig.schemaOk (c : CouplingConfig) : Bool :=
  0 < c.time_window_size && 0 < c.max_time && 2 ≤ c.participants.length

/-- `TopologyConfig.validate_participant_names` and
`TopologyConfig.validate_mesh_names` together with the nested field
validators: the whole pydantic schema check of `TopologyConfig(**data)`. -/
def TopologyConfig.schemaOk (t : TopologyConfig) : Bool :=
  t.meshes.all MeshConfig.schemaOk
    && t.participants.all ParticipantConfig.schemaOk
    && t.coupling.schemaOk
    && (t.participants.map ParticipantConfig.name).dedup.length
        == t.participants.length
    && (t.meshes.map MeshConfig.name).dedup.length == t.meshes.length

/-! ## Semantic validator
(`PreciceConfigGenerator._validate_topology_configuration`)

The source raises `ValueError` at the first failed check; `validateErr` returns
the message of that first failure (`none` = accepted).  Checks appear in the
source's order. -/

/-- First error produced by scanning a list, or `none`. -/
def firstErr : List α → (α → Option String) → Option String
  | [], _ => none
  | x :: xs, f =>
    match f x with
    | some e => some e
    | none => firstErr xs f

/-- Sequencing of two possibly-failing checks: the first error wins. -/
def orE : Option String → Option String → Option String
  | some e, _ => some e
  | none, r => r

/-- First error among a sequence of checks run in order. -/
def firstSome : List (Option String) → Option String
  | [] => none
  | c :: cs => orE c (firstSome cs)

/-- Membership test for an optional string, mirroring Python's
`x not in names` where `x` may be `None` (which is never a member). -/
def optMem : Option String → List String → Bool
  | some s, l => l.contains s
  | none, _ => false

/-- `_validate_topology_configuration`, faithfully in source order:
participant-name uniqueness; per participant, `provides_mesh` then each entry of
`receives_meshes` against mesh names; per participant, each entry of `read_data`
then of `write_data` against data names; the two-participant minimum; the
coupling-participants subset check; per exchange, `data`, `mesh`, `from`, `to`;
finally positivity of `time_window_size` and `max_time`.  The first failing
check raises, so only its message is returned. -/
def validateErr (t : TopologyConfig) : Option String :=
  let participant_names := t.participants.map ParticipantConfig.name
  let all_mesh_names := t.meshes.map MeshConfig.name
  let all_data_names := t.data.map DataConfig.name
  firstSome
    [ if participant_names.dedup.length ≠ participant_names.length then
        some "Participant names must be unique"
      else none
    , firstErr t.participants (fun p =>
        orE
          (if ¬ all_mesh_names.contains p.provides_mesh then
            some ("Participant " ++ p.name ++ " provides non-existent mesh: "
              ++ p.provides_mesh)
          else none)
          (firstErr p.receives_meshes (fun r =>
            if ¬ all_mesh_names.contains r then
              some ("Participant " ++ p.name ++ " receives non-existent mesh: "
                ++ r)
            else none)))
    , firstErr t.participants (fun p =>
        orE
          (firstErr p.read_data (fun d =>
            if ¬ all_data_names.contains d then
              some ("Participant " ++ p.name ++ " reads non-existent data: "
                ++ d)
            else none))
          (firstErr p.write_data (fun d =>
            if ¬ all_data_names.contains d then
              some ("Participant " ++ p.name ++ " writes non-existent data: "
                ++ d)
            else none)))
    , if t.participants.length < 2 then
        some "At least two participants are required for coupling"
      else none
    , if ¬ t.coupling.participants.all (fun c => participant_names.contains c)
      then some "Coupling participants must be defined in the topology"
      else none
    , firstErr t.coupling.exchanges (fun e =>
        firstSome
          [ if ¬ optMem e.data all_data_names then
              some "Exchange references non-existent data"
            else none
          , if ¬ optMem e.mesh all_mesh_names then
              some "Exchange references non-existent mesh"
            else none
          , if ¬ optMem e.from_ participant_names then
              some "Exchange from participant not found"
            else none
          , if ¬ optMem e.to_ participant_names then
              some "Exchange to participant not found"
            else none ])
    , if t.coupling.time_window_size ≤ 0 then
        some "Time window size must be positive"
      else none
    , if t.coupling.max_time ≤ 0 then
        some "Maximum simulation time must be positive"
      else none ]

/-- The error list observable from one validator run: the source raises at the
first violated check, so a run reports at most one error. -/
def validationErrors (t : TopologyConfig) : List String :=
  match validateErr t with
  | some e => [e]
  | none => []

/-! ## The element tree

The document tree shared by the emitter (`generate_precice_config`) and the
reader (`PreciceXMLToTopologyConverter`).  Serialization and parsing are the
out-of-scope collaborators of spec section 6 and are modelled as the identity on
this tree. -/

/-- A qualified XML tag: optional namespace prefix plus local name. -/
structure Tag where
  pre : Option String
  loc : String
deriving DecidableEq, Repr

/-- An attribute value: text, or an exact numeric value (see the module
conventions above: numbers written with `str(...)` and re-read with
`float(...)`/`int(...)` are carried exactly; `Val.str` is non-numeric text, on
which `float`/`int` raise). -/
inductive Val where
  | str (s : String)
  | num (q : ℚ)
deriving DecidableEq, Repr

/-- An XML element: tag, attributes in insertion order, children in order. -/
inductive XElem where
  | mk (tag : Tag) (attrs : List (String × Val)) (children : List XElem)

/-- Tag of an element. -/
def XElem.tag : XElem → Tag
  | .mk t _ _ => t

/-- Attributes of an element, in insertion order. -/
def XElem.attrs : XElem → List (String × Val)
  | .mk _ a _ => a

/-- Children of an element, in document order. -/
def XElem.children : XElem → List XElem
  | .mk _ _ c => c

mutual

/-- All proper descendants of an element in document order (the elements an
ElementTree `.//` path ranges over). -/
def descE : XElem → List XElem
  | .mk _ _ cs => descL cs

/-- Descendant list of a forest: each root followed by its descendants. -/
def descL : List XElem → List XElem
  | [] => []
  | c :: cs => c :: (descE c ++ descL cs)

end

/-- `elem.get(key)`: first attribute with the given name. -/
def getAttr (e : XElem) (k : String) : Option Val :=
  (e.attrs.find? (fun a => a.1 == k)).map Prod.snd

/-- `elem.findall(path)` for a `.//`-path whose alternatives are the given
tags, in document order. -/
def findAllTags (e : XElem) (ts : List Tag) : List XElem :=
  (descE e).filter (fun c => decide (c.tag ∈ ts))

/-- `elem.find(path)`: first match of the path, if any. -/
def findTag (e : XElem) (ts : List Tag) : Option XElem :=
  (findAllTags e ts).head?

/-! ## Document Emitter (`PreciceConfigGenerator.generate_precice_config`)

Builds the element tree exactly as the source does, in source order.  Python
failure points are modelled with `Option`: the `next(...)` over providers of a
received mesh (StopIteration when no participant provides it) and the
`participants[0]` / `participants[1]` indexing (IndexError on fewer than two
participants). -/

/-- The namespace constant repeated in the source. -/
def nsURI : String := "http://www.precice.org/namespace/precice-config"

/-- `_get_enum_value` on a `DataType`. -/
def enumValData : DataType → String
  | .SCALAR => "scalar"
  | .VECTOR => "vector"
  | .TENSOR => "tensor"

/-- `_get_enum_value` on a `CouplingSchemeType`. -/
def enumValCoupling : CouplingSchemeType → String
  | .SERIAL_EXPLICIT => "serial-explicit"
  | .SERIAL_IMPLICIT => "serial-implicit"
  | .PARALLEL_EXPLICIT => "parallel-explicit"
  | .PARALLEL_IMPLICIT => "parallel-implicit"

/-- The fixed `sink` child of the logging declaration. -/
def sinkElem : XElem :=
  .mk ⟨none, "sink"⟩
    [ ("filter", .str "%Severity% > debug and %Rank% = 0")
    , ("format", .str "---[precice] %ColorizedSeverity% %Message%")
    , ("enabled", .str "true") ] []

/-- The fixed `log`/`sink` declaration the emitter always places first. -/
def logElem : XElem :=
  .mk ⟨none, "log"⟩ [] [sinkElem]

/-- One `data:{scalar|vector|tensor}` element. -/
def dataElem (d : DataConfig) : XElem :=
  .mk ⟨some "data", enumValData d.type⟩ [("name", .str d.name)] []

/-- One `use-data` child of a mesh. -/
def useDataElem (n : String) : XElem :=
  .mk ⟨none, "use-data"⟩ [("name", .str n)] []

/-- One `mesh` element with its `use-data` children. -/
def meshElem (m : MeshConfig) : XElem :=
  .mk ⟨none, "mesh"⟩
    [("name", .str m.name), ("dimensions", .num m.dimensions)]
    (m.data.map useDataElem)

/-- `next(p for p in participants if p.provides_mesh == recv_mesh)`: the first
participant in declaration order providing the mesh, if any. -/
def providerFor (t : TopologyConfig) (r : String) : Option ParticipantConfig :=
  t.participants.find? (fun p => p.provides_mesh == r)

/-- One `receive-mesh` child.  The source passes the producer under the Python
keyword `_from`, so the attribute in the document is literally named `_from`. -/
def recvElem (r : String) (f : String) : XElem :=
  .mk ⟨none, "receive-mesh"⟩ [("name", .str r), ("_from", .str f)] []

/-- One `read-data` child; the associated mesh is the participant's
`provides_mesh`. -/
def readDataElem (p : ParticipantConfig) (d : String) : XElem :=
  .mk ⟨none, "read-data"⟩ [("name", .str d), ("mesh", .str p.provides_mesh)] []

/-- One `write-data` child; the associated mesh is the participant's
`provides_mesh`. -/
def writeDataElem (p : ParticipantConfig) (d : String) : XElem :=
  .mk ⟨none, "write-data"⟩ [("name", .str d), ("mesh", .str p.provides_mesh)] []

/-- The `provide-mesh` child of a participant. -/
def provideMeshElem (p : ParticipantConfig) : XElem :=
  .mk ⟨none, "provide-mesh"⟩ [("name", .str p.provides_mesh)] []

/-- One `participant` element; `none` models the StopIteration raised by the
provider lookup when some received mesh has no provider. -/
def emitParticipant (t : TopologyConfig) (p : ParticipantConfig) :
    Option XElem := do
  let recvs ← p.receives_meshes.mapM
    (fun r => (providerFor t r).map (fun q => recvElem r q.name))
  some (.mk ⟨none, "participant"⟩ [("name", .str p.name)]
    (provideMeshElem p
      :: recvs
      ++ p.read_data.map (readDataElem p)
      ++ p.write_data.map (writeDataElem p)))

/-- The `m2n:sockets` element (note: the Python keyword `exchange_directory`
makes the attribute name use an underscore). -/
def m2nElem (p0 p1 : String) : XElem :=
  .mk ⟨some "m2n", "sockets"⟩
    [ ("acceptor", .str p0), ("connector", .str p1)
    , ("exchange_directory", .str "..") ] []

/-- One `exchange` child of the coupling scheme; each attribute is read with
`.get(key, '')`, and the producer is again passed as keyword `_from`. -/
def exchangeElem (e : Exchange) : XElem :=
  .mk ⟨none, "exchange"⟩
    [ ("data", .str (e.data.getD "")), ("mesh", .str (e.mesh.getD ""))
    , ("_from", .str (e.from_.getD "")), ("to", .str (e.to_.getD "")) ] []

/-- The `time-window-size` child of the coupling scheme. -/
def twsElem (q : ℚ) : XElem :=
  .mk ⟨none, "time-window-size"⟩ [("value", .num q)] []

/-- The `max-time` child of the coupling scheme. -/
def maxTimeElem (q : ℚ) : XElem :=
  .mk ⟨none, "max-time"⟩ [("value", .num q)] []

/-- The `participants` child of the coupling scheme, with its ordered
`first`/`second` attributes. -/
def participantsElem (a b : String) : XElem :=
  .mk ⟨none, "participants"⟩ [("first", .str a), ("second", .str b)] []

/-- The coupling-scheme element: tag from the coupling kind, then
`time-window-size`, `max-time`, `participants` (fed from the topology's first
two participants) and the exchanges, in source order. -/
def couplingSchemeElem (t : TopologyConfig) (p0 p1 : ParticipantConfig) :
    XElem :=
  .mk ⟨some "coupling-scheme", enumValCoupling t.coupling.type⟩ []
    ([ twsElem t.coupling.time_window_size
     , maxTimeElem t.coupling.max_time
     , participantsElem p0.name p1.name
     ] ++ t.coupling.exchanges.map exchangeElem)

/-- `generate_precice_config`: the full document tree.  The `first`/`second`
attributes of the `participants` child are taken from
`self.topology.participants[0]` and `[1]` (the declaration list), and the same
two names feed `m2n:sockets`. -/
def generatePreciceConfig (t : TopologyConfig) : Option XElem := do
  let parts ← t.participants.mapM (emitParticipant t)
  let p0 ← t.participants[0]?
  let p1 ← t.participants[1]?
  some (.mk ⟨none, "precice-configuration"⟩ [("xmlns", .str nsURI)]
    (logElem :: t.data.map dataElem ++ t.meshes.map meshElem ++ parts
      ++ (if t.participants.length > 1 then [m2nElem p0.name p1.name] else [])
      ++ [couplingSchemeElem t p0 p1]))

/-! ## Document Reader (`PreciceXMLToTopologyConverter`)

The reader rebuilds the raw (pre-model) topology mapping; attribute lookups
with `.get` may yield `None`, hence the `Option Val` fields.  The topology
`name` comes from the input file path and is outside the document model.
The converter's namespace map (`self.namespaces`) binds only the prefix
`precice`; an `ElementTree` path lookup resolves the path's prefixes against
that map while compiling the path, before looking at the document, and raises
`SyntaxError` on an unbound one — which is the fate of the `data:`- and
`coupling-scheme:`-prefixed search paths of `_extract_data` and
`_extract_coupling` on every input.  The unprefixed paths (`.//mesh`,
`.//use-data`, `.//participant`, `.//provide-mesh`, `.//receive-mesh`,
`.//read-data`, `.//write-data`, `.//time-window-size`, `.//max-time`,
`.//participants`, `.//exchange`) compile, and are modelled directly by
`findAllTags`/`findTag`. -/

/-- `tag.split` dropping the namespace part: the local name. -/
def tagSuffix (tg : Tag) : String := tg.loc

/-- Raw data declaration produced by `_extract_data`. -/
structure RawData where
  name : Option Val
  type : String
deriving DecidableEq, Repr

/-- Raw mesh produced by `_extract_meshes`. -/
structure RawMesh where
  name : Option Val
  dimensions : ℚ
  data : List (Option Val)
deriving DecidableEq, Repr

/-- Raw participant produced by `_extract_participants`. -/
structure RawParticipant where
  name : Option Val
  provides_mesh : Option Val
  receives_meshes : List (Option Val)
  read_data : List (Option Val)
  write_data : List (Option Val)
deriving DecidableEq, Repr

/-- Raw exchange produced by `_extract_coupling` (the `from` entry is read from
the `_from` attribute). -/
structure RawExchange where
  data : Option Val
  mesh : Option Val
  from_ : Option Val
  to_ : Option Val
deriving DecidableEq, Repr

/-- Raw coupling scheme produced by `_extract_coupling`. -/
structure RawCoupling where
  type : String
  time_window_size : ℚ
  max_time : ℚ
  participants : List (Option Val)
  exchanges : List RawExchange
deriving DecidableEq, Repr

/-- The raw topology mapping produced by `generate_topology_yaml` (without the
file-path-derived `name`). -/
structure ReadTopology where
  data : List RawData
  meshes : List RawMesh
  participants : List RawParticipant
  coupling : RawCoupling
deriving DecidableEq, Repr

/-- The three alternatives of the `_extract_data` path. -/
def dataTags : List Tag :=
  [⟨some "data", "scalar"⟩, ⟨some "data", "vector"⟩, ⟨some "data", "tensor"⟩]

/-- The four alternatives of the `_extract_coupling` path. -/
def couplingTags : List Tag :=
  [ ⟨some "coupling-scheme", "serial-explicit"⟩
  , ⟨some "coupling-scheme", "serial-implicit"⟩
  , ⟨some "coupling-scheme", "parallel-explicit"⟩
  , ⟨some "coupling-scheme", "parallel-implicit"⟩ ]

/-- The namespace prefixes bound in the converter's map
(`self.namespaces`, xml_to_topology.py line 18): only `precice`. -/
def readerNamespaces : List String := ["precice"]

/-- The prefix check `ElementTree` performs while compiling a path, before
looking at the document: every namespace prefix mentioned by the path must be
bound in the caller's namespace map. -/
def pathCompiles (ts : List Tag) : Bool :=
  ts.all (fun tg => match tg.pre with
    | none => true
    | some p => readerNamespaces.contains p)

/-- The `SyntaxError` message for a path whose prefix is unbound. -/
def prefixErr (p : String) : String :=
  "SyntaxError: prefix " ++ p ++ " not found in prefix map"

/-- `_extract_data`: its `findall` path
`.//data:scalar | .//data:vector | .//data:tensor` mentions the prefix
`data`, which is not bound in the converter's namespace map, so path
compilation raises `SyntaxError` for every document and the loop over matches
is dead code. -/
def extractData (root : XElem) : Except String (List RawData) :=
  if pathCompiles dataTags
  then .ok ((findAllTags root dataTags).map
    (fun e => ⟨getAttr e "name", tagSuffix e.tag⟩))
  else .error (prefixErr "data")

/-- `int(mesh_elem.get('dimensions', 3))`: default `3` when the attribute is
absent; `int` of non-numeric text raises. -/
def readDim : Option Val → Except String ℚ
  | none => .ok 3
  | some (.num q) => .ok q
  | some (.str _) => .error "invalid literal for int"

/-- `_extract_meshes` applied to one `mesh` element. -/
def mkRawMesh (e : XElem) : Except String RawMesh := do
  let d ← readDim (getAttr e "dimensions")
  pure ⟨getAttr e "name", d,
    (findAllTags e [⟨none, "use-data"⟩]).map (fun u => getAttr u "name")⟩

/-- `_extract_meshes`. -/
def extractMeshes (root : XElem) : Except String (List RawMesh) :=
  (findAllTags root [⟨none, "mesh"⟩]).mapM mkRawMesh

/-- `_extract_participants` applied to one `participant` element; the
`provide-mesh` lookup dereferences its result, so a missing child raises. -/
def mkRawParticipant (e : XElem) : Except String RawParticipant :=
  match findTag e [⟨none, "provide-mesh"⟩] with
  | none => .error "AttributeError: no provide-mesh element"
  | some pm =>
    .ok ⟨getAttr e "name", getAttr pm "name",
      (findAllTags e [⟨none, "receive-mesh"⟩]).map (fun r => getAttr r "name"),
      (findAllTags e [⟨none, "read-data"⟩]).map (fun r => getAttr r "name"),
      (findAllTags e [⟨none, "write-data"⟩]).map (fun r => getAttr r "name")⟩

/-- `_extract_participants`. -/
def extractParticipants (root : XElem) : Except String (List RawParticipant) :=
  (findAllTags root [⟨none, "participant"⟩]).mapM mkRawParticipant

/-- `float(elem.get('value'))` with a default when the element is absent:
`float(None)` and `float` of non-numeric text raise. -/
def readTime (dflt : ℚ) : Option XElem → Except String ℚ
  | none => .ok dflt
  | some el =>
    match getAttr el "value" with
    | some (.num q) => .ok q
    | _ => .error "float: bad value"

/-- `_extract_coupling`: its `find` path names the four coupling-scheme
alternatives with the prefix `coupling-scheme`, which is not bound in the
converter's namespace map, so path compilation raises `SyntaxError` for every
document; the `ValueError` branch for a missing element, the defaults for
`time-window-size` (`0.1`) and `max-time` (`10.0`), and the empty
`participants` fallback are dead code (kept below as the source writes
them). -/
def extractCoupling (root : XElem) : Except String RawCoupling :=
  if !pathCompiles couplingTags then .error (prefixErr "coupling-scheme")
  else match findTag root couplingTags with
  | none => .error "No coupling scheme found in XML"
  | some ce => do
    let tws ← readTime (mkRat 1 10) (findTag ce [⟨none, "time-window-size"⟩])
    let mt ← readTime 10 (findTag ce [⟨none, "max-time"⟩])
    let parts :=
      match findTag ce [⟨none, "participants"⟩] with
      | some pe => [getAttr pe "first", getAttr pe "second"]
      | none => []
    let exs := (findAllTags ce [⟨none, "exchange"⟩]).map (fun e =>
      RawExchange.mk (getAttr e "data") (getAttr e "mesh")
        (getAttr e "_from") (getAttr e "to"))
    pure ⟨tagSuffix ce.tag, tws, mt, parts, exs⟩

/-- `generate_topology_yaml`: the composed reader (extraction order as in the
source's dict literal, `data` first — so every read already fails at
`_extract_data`). -/
def readTopology (root : XElem) : Except String ReadTopology := do
  let d ← extractData root
  let ms ← extractMeshes root
  let ps ← extractParticipants root
  let c ← extractCoupling root
  pure ⟨d, ms, ps, c⟩

/-! ## Enum/Compatibility Normalizer (`PreciceConfigGenerator._convert_enums`)

`_convert_enums` receives the freshly-parsed YAML mapping and rewrites the
`mapping_type`, `coupling.type` and `data[].type` slots through fixed lookup
tables, assigning into the nested dictionaries of its argument and returning
that same object.  The raw slots are modelled as sums of the value shapes YAML
parsing can produce (integer code, text) plus the canonical enum the conversion
stores back; an absent key is `none`.  Because every assignment targets the
caller's own (aliased) dictionaries, the caller's document after the call is
exactly the value `convertEnums` computes. -/

/-- Raw content of a `mapping_type` slot. -/
inductive RawMappingVal where
  | code (n : ℤ)
  | txt (s : String)
  | canon (m : MappingType)
deriving DecidableEq, Repr

/-- Raw content of a `coupling.type` slot. -/
inductive RawCouplingVal where
  | code (n : ℤ)
  | txt (s : String)
  | canon (c : CouplingSchemeType)
deriving DecidableEq, Repr

/-- Raw content of a `data[].type` slot. -/
inductive RawDataVal where
  | code (n : ℤ)
  | txt (s : String)
  | canon (d : DataType)
deriving DecidableEq, Repr

/-- A raw participant mapping, restricted to the slot `_convert_enums`
touches. -/
structure RawPart where
  mapping_type : Option RawMappingVal
deriving DecidableEq, Repr

/-- A raw coupling mapping, restricted to the slot `_convert_enums` touches. -/
structure RawCouplingDoc where
  type : Option RawCouplingVal
deriving DecidableEq, Repr

/-- A raw data declaration, restricted to the slot `_convert_enums` touches. -/
structure RawDataDecl where
  type : Option RawDataVal
deriving DecidableEq, Repr

/-- The raw topology document as seen by `_convert_enums`; `none` for a
top-level key models its absence (`if key in topology_data`). -/
structure RawTopologyDoc where
  participants : Option (List RawPart)
  coupling : Option RawCouplingDoc
  data : Option (List RawDataDecl)
deriving DecidableEq, Repr

/-- `mapping_type_map.get(value, MappingType.RBF)`: the table keys are the
integers 0–3, so any other value (text, or an already-canonical enum) falls
back to `RBF`. -/
def convertMappingVal : RawMappingVal → RawMappingVal
  | .code 0 => .canon .RBF
  | .code 1 => .canon .NEAREST_PROJECTION
  | .code 2 => .canon .CONSISTENT
  | .code 3 => .canon .CONSERVATIVE
  | _ => .canon .RBF

/-- `coupling_type_map.get(value, CouplingSchemeType.SERIAL_EXPLICIT)`. -/
def convertCouplingVal : RawCouplingVal → RawCouplingVal
  | .code 0 => .canon .SERIAL_EXPLICIT
  | .code 1 => .canon .SERIAL_IMPLICIT
  | .code 2 => .canon .PARALLEL_EXPLICIT
  | .code 3 => .canon .PARALLEL_IMPLICIT
  | _ => .canon .SERIAL_EXPLICIT

/-- `data_type_map.get(value, DataType.VECTOR)`: the table keys are the strings
`scalar`, `vector`, `tensor`. -/
def convertDataVal : RawDataVal → RawDataVal
  | .txt s =>
    if s = "scalar" then .canon .SCALAR
    else if s = "vector" then .canon .VECTOR
    else if s = "tensor" then .canon .TENSOR
    else .canon .VECTOR
  | _ => .canon .VECTOR

/-- `_convert_enums`: the value of the document after the call (the function
assigns into its argument's nested dictionaries and returns the same object, so
this is both the returned document and the caller's document post-call). -/
def convertEnums (d : RawTopologyDoc) : RawTopologyDoc :=
  { participants := d.participants.map (fun ps => ps.map (fun p =>
      { mapping_type := p.mapping_type.map convertMappingVal }))
  , coupling := d.coupling.map (fun c => { type := c.type.map convertCouplingVal })
  , data := d.data.map (fun ds => ds.map (fun x =>
      { type := x.type.map convertDataVal })) }

/-- A document is normalized when every present convertible slot holds a
canonical enum value. -/
def RawTopologyDoc.normalized (d : RawTopologyDoc) : Prop :=
  (∀ ps ∈ d.participants, ∀ p ∈ ps, ∀ v ∈ p.mapping_type,
      ∃ m, v = RawMappingVal.canon m)
  ∧ (∀ c ∈ d.coupling, ∀ v ∈ c.type, ∃ k, v = RawCouplingVal.canon k)
  ∧ (∀ ds ∈ d.data, ∀ x ∈ ds, ∀ v ∈ x.type, ∃ k, v = RawDataVal.canon k)

/-! ## Concrete topologies used by the theorems below -/

/-- Count of descendants of a document carrying a given tag. -/
def countTag (e : XElem) (tg : Tag) : ℕ :=
  (findAllTags e [tg]).length

/-- Spec Example 1, participant `Fluid`: provides `FluidMesh`, writes
`Temperature`, reads nothing. -/
def fluidP : ParticipantConfig :=
  ⟨"Fluid", "FluidMesh", [], [], ["Temperature"], .RBF, "consistent"⟩

/-- Spec Example 1, participant `Solid`: receives `FluidMesh`, reads
`Temperature`, writes nothing.  `provides_mesh` is a required schema field and
`FluidMesh` is the example's only mesh, so that is its value. -/
def solidP : ParticipantConfig :=
  ⟨"Solid", "FluidMesh", ["FluidMesh"], ["Temperature"], [], .RBF, "consistent"⟩

/-- Spec Example 1: one vector datum, one mesh, the two participants above, a
serial-explicit coupling with `time_window_size = 0.01`, `max_time = 1.0`, the
ordered pair `Fluid`, `Solid` and a single exchange. -/
def example1 : TopologyConfig :=
  ⟨"example", [⟨"Temperature", .VECTOR⟩], [⟨"FluidMesh", 2, ["Temperature"]⟩],
    [fluidP, solidP],
    ⟨.SERIAL_EXPLICIT, mkRat 1 100, 1, ["Fluid", "Solid"],
      [⟨some "Temperature", some "FluidMesh", some "Fluid", some "Solid"⟩]⟩⟩

/-- A fully schema- and semantically-valid two-participant topology (both
participants read and write, so the pydantic layer accepts it). -/
def baseTop : TopologyConfig :=
  ⟨"base", [⟨"Temperature", .VECTOR⟩],
    [⟨"FluidMesh", 2, ["Temperature"]⟩, ⟨"SolidMesh", 2, ["Temperature"]⟩],
    [ ⟨"Fluid", "FluidMesh", [], ["Temperature"], ["Temperature"], .RBF,
        "consistent"⟩
    , ⟨"Solid", "SolidMesh", ["FluidMesh"], ["Temperature"], ["Temperature"],
        .RBF, "consistent"⟩ ],
    ⟨.SERIAL_EXPLICIT, mkRat 1 100, 1, ["Fluid", "Solid"],
      [⟨some "Temperature", some "FluidMesh", some "Fluid", some "Solid"⟩]⟩⟩

/-- `baseTop` with the coupling participant pair reversed with respect to the
declaration order of the participant list. -/
def swappedTop : TopologyConfig :=
  { baseTop with
    coupling := { baseTop.coupling with participants := ["Solid", "Fluid"] } }

/-- `baseTop` with a dangling mesh-data reference (`Pressure` is not declared)
and a negative time window: the combined input of spec Examples 2 and 3. -/
def exC2 : TopologyConfig :=
  { baseTop with
    meshes := [⟨"FluidMesh", 2, ["Pressure"]⟩, ⟨"SolidMesh", 2, ["Temperature"]⟩]
    coupling := { baseTop.coupling with time_window_size := mkRat (-1) 100 } }

/-- `exC2` with a positive time window: the dangling mesh-data reference
alone. -/
def exC2pos : TopologyConfig :=
  { exC2 with coupling := { exC2.coupling with time_window_size := mkRat 1 100 } }

/-- A valid topology in which participant `A` receives mesh `M2`, which exists
but which no participant provides. -/
def exC5 : TopologyConfig :=
  ⟨"noProvider", [⟨"T", .VECTOR⟩], [⟨"M1", 2, ["T"]⟩, ⟨"M2", 2, ["T"]⟩],
    [ ⟨"A", "M1", ["M2"], ["T"], ["T"], .RBF, "consistent"⟩
    , ⟨"B", "M1", [], ["T"], ["T"], .RBF, "consistent"⟩ ],
    ⟨.SERIAL_EXPLICIT, mkRat 1 100, 1, ["A", "B"], []⟩⟩

/-- `baseTop` with a duplicated data name. -/
def dupDataTop : TopologyConfig :=
  { baseTop with
    data := [⟨"Temperature", .VECTOR⟩, ⟨"Temperature", .SCALAR⟩] }

/-- `baseTop` with the same coupling participant listed twice. -/
def repPartTop : TopologyConfig :=
  { baseTop with
    coupling := { baseTop.coupling with participants := ["Fluid", "Fluid"] } }

/-- `baseTop` with three coupling participant entries. -/
def triPartTop : TopologyConfig :=
  { baseTop with
    coupling :=
      { baseTop.coupling with participants := ["Fluid", "Solid", "Fluid"] } }

/-- A raw document holding the legacy string `scalar` in a data-type slot. -/
def legacyDoc : RawTopologyDoc :=
  ⟨some [⟨some (.code 1)⟩], some ⟨some (.code 2)⟩, some [⟨some (.txt "scalar")⟩]⟩

/-- A document with no coupling-scheme element. -/
def w9doc : XElem :=
  .mk ⟨none, "precice-configuration"⟩ []
    [.mk ⟨none, "mesh"⟩ [("name", .str "M"), ("dimensions", .num 2)] []]

/-- A `mesh` element with no `dimensions` attribute. -/
def meshNoDim : XElem :=
  .mk ⟨none, "mesh"⟩ [("name", .str "M")] []

/-- A bare coupling-scheme element with no children. -/
def w10cpl : XElem :=
  .mk ⟨some "coupling-scheme", "serial-explicit"⟩ [] []

/-- A document whose coupling scheme lacks `time-window-size`, `max-time` and
`participants` children. -/
def w10doc : XElem :=
  .mk ⟨none, "precice-configuration"⟩ [] [w10cpl]

/-! ## Helper lemmas on the validator combinators -/

/-- `orE` yields no error iff neither argument does. -/
theorem orE_eq_none {a b : Option String} :
    orE a b = none ↔ a = none ∧ b = none := by
  cases a <;> simp [orE]

/-- `firstSome` yields no error iff no listed check does. -/
theorem firstSome_eq_none {l : List (Option String)} :
    firstSome l = none ↔ ∀ c ∈ l, c = none := by
  induction l with
  | nil => simp [firstSome]
  | cons c cs ih => simp [firstSome, orE_eq_none, ih]

/-- `firstErr` yields no error iff the check passes on every element. -/
theorem firstErr_eq_none {l : List α} {f : α → Option String} :
    firstErr l f = none ↔ ∀ x ∈ l, f x = none := by
  induction l with
  | nil => simp [firstErr]
  | cons x xs ih =>
    simp only [firstErr, List.mem_cons]
    cases h : f x with
    | some e => simp [h]
    | none => simp [h, ih]

/-- A guard-style check passes iff its condition fails. -/
theorem ite_some_eq_none {c : Prop} [Decidable c] {e : String} :
    (if c then some e else none) = none ↔ ¬ c := by
  split <;> simp_all

/-- A list has pairwise-distinct elements when deduplication keeps its
length (the shape of the source's `len(set(xs)) == len(xs)` test). -/
theorem nodup_of_dedup_length {l : List String}
    (h : l.dedup.length = l.length) : l.Nodup := by
  have hs : l.dedup.Sublist l := List.dedup_sublist l
  have : l.dedup = l := hs.eq_of_length h
  exact this ▸ List.nodup_dedup l

/-! ## Structural lemmas about the element tree -/

/-- Descendants of an element are the descendant list of its children. -/
theorem descE_children (e : XElem) : descE e = descL e.children := by
  cases e
  rfl

/-- Unfolding of `descL` on a cons cell. -/
theorem descL_cons (c : XElem) (cs : List XElem) :
    descL (c :: cs) = c :: (descE c ++ descL cs) := rfl

/-- The descendant list distributes over appending forests. -/
theorem descL_append (xs ys : List XElem) :
    descL (xs ++ ys) = descL xs ++ descL ys := by
  induction xs with
  | nil => rfl
  | cons c cs ih => simp [descL_cons, ih]

/-- A childless element has no descendants. -/
theorem descE_eq_nil {c : XElem} (h : c.children = []) : descE c = [] := by
  cases c with
  | mk tg a cs =>
    simp only [XElem.children] at h
    subst h
    rfl

/-- The descendant list of a forest of leaves is the forest itself. -/
theorem descL_leaves {l : List XElem} (h : ∀ c ∈ l, c.children = []) :
    descL l = l := by
  induction l with
  | nil => rfl
  | cons c cs ih =>
    rw [descL_cons, descE_eq_nil (h c (by simp)),
      ih (fun d hd => h d (by simp [hd]))]
    rfl

/-- The descendant list of a forest whose grandchildren are leaves: each root
followed by its children. -/
theorem descL_depth1 {l : List XElem}
    (h : ∀ c ∈ l, ∀ d ∈ c.children, d.children = []) :
    descL l = l.flatMap (fun c => c :: c.children) := by
  induction l with
  | nil => rfl
  | cons c cs ih =>
    have h1 : descE c = c.children := by
      rw [descE_children]
      exact descL_leaves (h c (by simp))
    rw [descL_cons, h1, ih (fun d hd => h d (by simp [hd])),
      List.flatMap_cons, List.cons_append]

/-- Mapping before flat-mapping composes. -/
theorem flatMap_map (f : α → β) (g : β → List γ) (l : List α) :
    (l.map f).flatMap g = l.flatMap (fun x => g (f x)) := by
  induction l with
  | nil => rfl
  | cons x xs ih => simp [ih]

/-! ## Lemmas about monadic maps -/

/-- A successful `Option`-valued `mapM` relates inputs and outputs pointwise. -/
theorem mapM_option_forall₂ {f : α → Option β} :
    ∀ {l : List α} {ys : List β}, l.mapM f = some ys →
      List.Forall₂ (fun x y => f x = some y) l ys := by
  intro l
  induction l with
  | nil =>
    intro ys h
    rw [List.mapM_nil] at h
    cases h
    exact .nil
  | cons x xs ih =>
    intro ys h
    rw [List.mapM_cons] at h
    cases hfx : f x with
    | none => rw [hfx] at h; simp at h
    | some y =>
      rw [hfx] at h
      cases hrest : xs.mapM f with
      | none => rw [hrest] at h; simp at h
      | some rest =>
        rw [hrest] at h
        simp at h
        subst h
        exact .cons hfx (ih hrest)

/-- An `Option`-valued `mapM` succeeds when every component does. -/
theorem mapM_option_some {f : α → Option β} :
    ∀ {l : List α}, (∀ x ∈ l, (f x).isSome) → ∃ ys, l.mapM f = some ys := by
  intro l
  induction l with
  | nil => exact fun _ => ⟨[], by rw [List.mapM_nil]; rfl⟩
  | cons x xs ih =>
    intro h
    obtain ⟨y, hy⟩ := Option.isSome_iff_exists.mp (h x (by simp))
    obtain ⟨ys, hys⟩ := ih (fun a ha => h a (by simp [ha]))
    exact ⟨y :: ys, by rw [List.mapM_cons, hy, hys]; rfl⟩

/-- Right-hand members of a pointwise relation have related left partners. -/
theorem forall₂_mem_right {R : α → β → Prop} {l : List α} {ys : List β}
    (h : List.Forall₂ R l ys) {b : β} (hb : b ∈ ys) : ∃ a ∈ l, R a b := by
  induction h with
  | nil => simp at hb
  | cons h1 h2 ih =>
    rcases List.mem_cons.mp hb with hb1 | hb2
    · exact ⟨_, by simp, hb1 ▸ h1⟩
    · obtain ⟨a, ha, hra⟩ := ih hb2
      exact ⟨a, by simp [ha], hra⟩

/-! ## Shape of the emitted document -/

/-- A successful `emitParticipant` yields exactly the participant element of
the source: `provide-mesh` first, then one `receive-mesh` per received mesh
(producer resolved through `providerFor`), then the `read-data` and
`write-data` children. -/
theorem emitParticipant_some {t : TopologyConfig} {p : ParticipantConfig}
    {pe : XElem} (h : emitParticipant t p = some pe) :
    ∃ recvs,
      List.Forall₂
        (fun r y => ∃ q, providerFor t r = some q ∧ y = recvElem r q.name)
        p.receives_meshes recvs
      ∧ pe = XElem.mk ⟨none, "participant"⟩ [("name", .str p.name)]
          (provideMeshElem p :: recvs
            ++ p.read_data.map (readDataElem p)
            ++ p.write_data.map (writeDataElem p)) := by
  unfold emitParticipant at h
  cases hr : p.receives_meshes.mapM
      (fun r => (providerFor t r).map (fun q => recvElem r q.name)) with
  | none => rw [hr] at h; simp at h
  | some recvs =>
    rw [hr] at h
    refine ⟨recvs, ?_, by simpa using h.symm⟩
    refine (mapM_option_forall₂ hr).imp ?_
    intro r y hy
    cases hq : providerFor t r with
    | none => rw [hq] at hy; simp at hy
    | some q =>
      rw [hq] at hy
      simp only [Option.map_some', Option.some_inj] at hy
      exact ⟨q, rfl, hy.symm⟩

/-- A successful emission decomposes the document into its fixed block
structure, with the participant elements pointwise produced by
`emitParticipant` and the first two participants of the declaration list
feeding `m2n:sockets` and the coupling scheme. -/
theorem generate_some {t : TopologyConfig} {doc : XElem}
    (h : generatePreciceConfig t = some doc) :
    ∃ parts p0 p1,
      List.Forall₂ (fun p pe => emitParticipant t p = some pe)
        t.participants parts
      ∧ t.participants[0]? = some p0
      ∧ t.participants[1]? = some p1
      ∧ doc = XElem.mk ⟨none, "precice-configuration"⟩
          [("xmlns", .str nsURI)]
          (logElem :: t.data.map dataElem ++ t.meshes.map meshElem ++ parts
            ++ (if t.participants.length > 1 then [m2nElem p0.name p1.name]
                else [])
            ++ [couplingSchemeElem t p0 p1]) := by
  unfold generatePreciceConfig at h
  cases hm : t.participants.mapM (emitParticipant t) with
  | none => rw [hm] at h; simp at h
  | some parts =>
    rw [hm] at h
    cases h0 : t.participants[0]? with
    | none => rw [h0] at h; simp at h
    | some p0 =>
      rw [h0] at h
      cases h1 : t.participants[1]? with
      | none => rw [h1] at h; simp at h
      | some p1 =>
        rw [h1] at h
        exact ⟨parts, p0, p1, mapM_option_forall₂ hm, rfl, rfl,
          by simpa using h.symm⟩

/-- Empty forest, no descendants. -/
theorem descL_nil : descL [] = [] := rfl

/-- Membership in the children of an emitted participant element, split into
the four child kinds. -/
theorem part_child_cases {t : TopologyConfig} {p : ParticipantConfig}
    {recvs : List XElem} {d : XElem}
    (hd : d ∈ provideMeshElem p :: recvs
        ++ p.read_data.map (readDataElem p)
        ++ p.write_data.map (writeDataElem p)) :
    d = provideMeshElem p ∨ d ∈ recvs
      ∨ (∃ n, d = readDataElem p n) ∨ (∃ n, d = writeDataElem p n) := by
  simp only [List.cons_append, List.mem_cons, List.mem_append,
    List.mem_map] at hd
  rcases hd with rfl | (hd | ⟨n, -, rfl⟩) | ⟨n, -, rfl⟩
  · exact Or.inl rfl
  · exact Or.inr (Or.inl hd)
  · exact Or.inr (Or.inr (Or.inl ⟨n, rfl⟩))
  · exact Or.inr (Or.inr (Or.inr ⟨n, rfl⟩))

/-- The children of every emitted participant element are leaves. -/
theorem parts_children_leaves {t : TopologyConfig} {parts : List XElem}
    (hf : List.Forall₂ (fun p pe => emitParticipant t p = some pe)
      t.participants parts) :
    ∀ pe ∈ parts, ∀ d ∈ pe.children, d.children = [] := by
  intro pe hpe d hd
  obtain ⟨p, -, hemit⟩ := forall₂_mem_right hf hpe
  obtain ⟨recvs, hrecvs, rfl⟩ := emitParticipant_some hemit
  simp only [XElem.children] at hd
  rcases part_child_cases (t := t) hd with rfl | hd | ⟨n, rfl⟩ | ⟨n, rfl⟩
  · rfl
  · obtain ⟨r, -, ⟨q, -, rfl⟩⟩ := forall₂_mem_right hrecvs hd
    rfl
  · rfl
  · rfl

/-- The tag of every emitted participant element, and the tags of its
children. -/
theorem parts_tags {t : TopologyConfig} {parts : List XElem}
    (hf : List.Forall₂ (fun p pe => emitParticipant t p = some pe)
      t.participants parts) :
    ∀ pe ∈ parts, pe.tag = ⟨none, "participant"⟩
      ∧ ∀ d ∈ pe.children, d.tag.pre = none
          ∧ (d.tag.loc = "provide-mesh" ∨ d.tag.loc = "receive-mesh"
              ∨ d.tag.loc = "read-data" ∨ d.tag.loc = "write-data") := by
  intro pe hpe
  obtain ⟨p, -, hemit⟩ := forall₂_mem_right hf hpe
  obtain ⟨recvs, hrecvs, rfl⟩ := emitParticipant_some hemit
  refine ⟨rfl, ?_⟩
  intro d hd
  simp only [XElem.children] at hd
  rcases part_child_cases (t := t) hd with rfl | hd | ⟨n, rfl⟩ | ⟨n, rfl⟩
  · exact ⟨rfl, Or.inl rfl⟩
  · obtain ⟨r, -, ⟨q, -, rfl⟩⟩ := forall₂_mem_right hrecvs hd
    exact ⟨rfl, Or.inr (Or.inl rfl)⟩
  · exact ⟨rfl, Or.inr (Or.inr (Or.inl rfl))⟩
  · exact ⟨rfl, Or.inr (Or.inr (Or.inr rfl))⟩

/-- The full descendant list of an emitted document, in document order. -/
theorem descE_doc (t : TopologyConfig) (p0 p1 : ParticipantConfig)
    {parts : List XElem}
    (hpl : ∀ pe ∈ parts, ∀ d ∈ pe.children, d.children = []) :
    descE (XElem.mk ⟨none, "precice-configuration"⟩
        [("xmlns", .str nsURI)]
        (logElem :: t.data.map dataElem ++ t.meshes.map meshElem ++ parts
          ++ (if t.participants.length > 1 then [m2nElem p0.name p1.name]
              else [])
          ++ [couplingSchemeElem t p0 p1]))
      = logElem :: sinkElem ::
          (t.data.map dataElem
            ++ t.meshes.flatMap (fun m => meshElem m :: m.data.map useDataElem)
            ++ parts.flatMap (fun pe => pe :: pe.children)
            ++ (if t.participants.length > 1 then [m2nElem p0.name p1.name]
                else [])
            ++ (couplingSchemeElem t p0 p1
                :: (couplingSchemeElem t p0 p1).children)) := by
  have hdata : descL (t.data.map dataElem) = t.data.map dataElem := by
    refine descL_leaves ?_
    intro c hc
    obtain ⟨d, -, rfl⟩ := List.mem_map.mp hc
    rfl
  have hmeshgc : ∀ c ∈ t.meshes.map meshElem, ∀ d ∈ c.children,
      d.children = [] := by
    intro c hc d hd
    obtain ⟨m, -, rfl⟩ := List.mem_map.mp hc
    simp only [meshElem, XElem.children, List.mem_map] at hd
    obtain ⟨n, -, rfl⟩ := hd
    rfl
  have hmesh : descL (t.meshes.map meshElem)
      = t.meshes.flatMap (fun m => meshElem m :: m.data.map useDataElem) := by
    rw [descL_depth1 hmeshgc, flatMap_map]
    rfl
  have hparts : descL parts = parts.flatMap (fun pe => pe :: pe.children) :=
    descL_depth1 hpl
  have hm2n : descL (if t.participants.length > 1
      then [m2nElem p0.name p1.name] else [])
      = (if t.participants.length > 1 then [m2nElem p0.name p1.name]
          else []) := by
    refine descL_leaves ?_
    intro c hc
    split at hc
    · rcases List.mem_singleton.mp hc with rfl
      rfl
    · simp at hc
  have hcplkids : ∀ d ∈ (couplingSchemeElem t p0 p1).children,
      d.children = [] := by
    intro d hd
    simp only [couplingSchemeElem, XElem.children, List.mem_append,
      List.mem_cons, List.not_mem_nil, or_false, List.mem_map] at hd
    rcases hd with (rfl | rfl | rfl) | ⟨e, -, rfl⟩ <;> rfl
  have hcpl : descL [couplingSchemeElem t p0 p1]
      = couplingSchemeElem t p0 p1
          :: (couplingSchemeElem t p0 p1).children := by
    rw [descL_cons, descE_children, descL_leaves hcplkids, descL_nil]
    simp
  have hlogdata : descL (logElem :: t.data.map dataElem)
      = logElem :: sinkElem :: t.data.map dataElem := by
    rw [descL_cons, hdata]
    rfl
  rw [descE_children]
  simp only [XElem.children]
  rw [descL_append, descL_append, descL_append, descL_append,
    hlogdata, hmesh, hparts, hm2n, hcpl]
  simp only [List.append_assoc, List.cons_append]
  rfl

/-- Filtering a mapped forest whose images all fail the predicate. -/
theorem filter_map_false {f : α → XElem} {p : XElem → Bool}
    (h : ∀ a, p (f a) = false) (l : List α) :
    (l.map f).filter p = [] := by
  rw [List.filter_map]
  have hl : l.filter (p ∘ f) = [] :=
    List.filter_eq_nil_iff.mpr (fun a _ => by simp [Function.comp, h a])
  rw [hl, List.map_nil]


/-- Collapsing a depth-one forest filter to its roots when no child
matches. -/
theorem filter_flat_roots {p : XElem → Bool} {l : List XElem}
    (h : ∀ c ∈ l, ∀ d ∈ c.children, p d = false) :
    (l.flatMap (fun c => c :: c.children)).filter p = l.filter p := by
  induction l with
  | nil => rfl
  | cons c cs ih =>
    rw [List.flatMap_cons, List.filter_append, List.filter_cons,
      List.filter_cons,
      List.filter_eq_nil_iff.mpr (fun d hd => by simp [h c (by simp) d hd]),
      ih (fun a ha => h a (by simp [ha]))]
    split <;> rfl

/-- Collapsing the mesh-block filter to the mesh roots when `use-data` does
not match. -/
theorem filter_mesh_roots {p : XElem → Bool} {l : List MeshConfig}
    (h : ∀ n, p (useDataElem n) = false) :
    (l.flatMap (fun m => meshElem m :: m.data.map useDataElem)).filter p
      = (l.map meshElem).filter p := by
  induction l with
  | nil => rfl
  | cons m ms ih =>
    rw [List.flatMap_cons, List.filter_append, List.filter_cons,
      List.map_cons, List.filter_cons]
    have hnil : (m.data.map useDataElem).filter p = [] := by
      refine List.filter_eq_nil_iff.mpr ?_
      intro d hd
      obtain ⟨n, -, rfl⟩ := List.mem_map.mp hd
      simp [h n]
    rw [hnil, ih]
    split <;> rfl

/-- The tag of the coupling-scheme element is one of the reader's four
coupling tags. -/
theorem cplElem_mem_couplingTags (t : TopologyConfig)
    (p0 p1 : ParticipantConfig) :
    decide ((couplingSchemeElem t p0 p1).tag ∈ couplingTags) = true := by
  have h : ∀ k : CouplingSchemeType,
      decide ((⟨some "coupling-scheme", enumValCoupling k⟩ : Tag)
        ∈ couplingTags) = true := by
    intro k
    cases k <;> rfl
  exact h t.coupling.type

/-- Every top-level search whose tags exclude the auxiliary vocabulary (log,
sink, use-data, participant children, m2n, coupling-scheme children) reduces
to a filter over the four interesting element groups. -/
theorem findAll_top_gen {t : TopologyConfig} {parts : List XElem}
    {p0 p1 : ParticipantConfig}
    (hf : List.Forall₂ (fun p pe => emitParticipant t p = some pe)
      t.participants parts)
    (ts : List Tag)
    (hlog : decide (logElem.tag ∈ ts) = false)
    (hsink : decide (sinkElem.tag ∈ ts) = false)
    (husedata : decide ((useDataElem "x").tag ∈ ts) = false)
    (hm2nno : decide ((m2nElem p0.name p1.name).tag ∈ ts) = false)
    (hkids : ∀ tg ∈ ts, tg.pre.isSome = true ∨ (tg.loc ≠ "provide-mesh"
        ∧ tg.loc ≠ "receive-mesh" ∧ tg.loc ≠ "read-data"
        ∧ tg.loc ≠ "write-data"))
    (htws : decide ((twsElem 0).tag ∈ ts) = false)
    (hmax : decide ((maxTimeElem 0).tag ∈ ts) = false)
    (hpts : decide ((participantsElem "a" "b").tag ∈ ts) = false)
    (hexch : decide ((exchangeElem ⟨none, none, none, none⟩).tag ∈ ts)
      = false) :
    findAllTags (XElem.mk ⟨none, "precice-configuration"⟩
        [("xmlns", .str nsURI)]
        (logElem :: t.data.map dataElem ++ t.meshes.map meshElem ++ parts
          ++ (if t.participants.length > 1 then [m2nElem p0.name p1.name]
              else [])
          ++ [couplingSchemeElem t p0 p1])) ts
      = (t.data.map dataElem).filter (fun c => decide (c.tag ∈ ts))
        ++ (t.meshes.map meshElem).filter (fun c => decide (c.tag ∈ ts))
        ++ parts.filter (fun c => decide (c.tag ∈ ts))
        ++ [couplingSchemeElem t p0 p1].filter
            (fun c => decide (c.tag ∈ ts)) := by
  have hdesc := descE_doc t p0 p1 (parts_children_leaves hf)
  have htags := parts_tags hf
  rw [findAllTags, hdesc]
  rw [List.filter_cons, hlog]
  simp only [Bool.false_eq_true, if_false]
  rw [List.filter_cons, hsink]
  simp only [Bool.false_eq_true, if_false]
  rw [List.filter_append, List.filter_append, List.filter_append,
    List.filter_append]
  rw [filter_mesh_roots (fun n => husedata)]
  rw [filter_flat_roots (fun pe hpe d hd => by
    obtain ⟨-, hk⟩ := htags pe hpe
    obtain ⟨hpre, hloc⟩ := hk d hd
    simp only [decide_eq_false_iff_not]
    intro hmem
    rcases hkids _ hmem with hs | ⟨h1, h2, h3, h4⟩
    · rw [hpre] at hs
      simp at hs
    · rcases hloc with h | h | h | h
      · exact h1 (h ▸ rfl)
      · exact h2 (h ▸ rfl)
      · exact h3 (h ▸ rfl)
      · exact h4 (h ▸ rfl))]
  have hm2nblk : (if t.participants.length > 1
      then [m2nElem p0.name p1.name] else []).filter
        (fun c => decide (c.tag ∈ ts)) = [] := by
    split
    · rw [List.filter_cons, hm2nno]
      rfl
    · rfl
  rw [hm2nblk]
  have hcplblk : (couplingSchemeElem t p0 p1
      :: (couplingSchemeElem t p0 p1).children).filter
        (fun c => decide (c.tag ∈ ts))
      = [couplingSchemeElem t p0 p1].filter
          (fun c => decide (c.tag ∈ ts)) := by
    rw [List.filter_cons, List.filter_cons]
    have hkidsnil : ((couplingSchemeElem t p0 p1).children).filter
        (fun c => decide (c.tag ∈ ts)) = [] := by
      refine List.filter_eq_nil_iff.mpr ?_
      intro d hd
      simp only [couplingSchemeElem, XElem.children, List.mem_append,
        List.mem_cons, List.not_mem_nil, or_false, List.mem_map] at hd
      rcases hd with (rfl | rfl | rfl) | ⟨e, -, rfl⟩
      · simp [show decide ((twsElem t.coupling.time_window_size).tag ∈ ts)
          = false from htws]
      · simp [show decide ((maxTimeElem t.coupling.max_time).tag ∈ ts)
          = false from hmax]
      · simp [show decide ((participantsElem p0.name p1.name).tag ∈ ts)
          = false from hpts]
      · simp [show decide ((exchangeElem e).tag ∈ ts) = false from hexch]
    rw [hkidsnil]
    rfl
  rw [hcplblk]
  simp

/-- The emitted document contains exactly one element with a coupling-scheme
tag: searching the tree for the four coupling tags finds exactly the emitted
coupling-scheme element. -/
theorem findAll_cpl {t : TopologyConfig} {parts : List XElem}
    {p0 p1 : ParticipantConfig}
    (hf : List.Forall₂ (fun p pe => emitParticipant t p = some pe)
      t.participants parts) :
    findAllTags (XElem.mk ⟨none, "precice-configuration"⟩
        [("xmlns", .str nsURI)]
        (logElem :: t.data.map dataElem ++ t.meshes.map meshElem ++ parts
          ++ (if t.participants.length > 1 then [m2nElem p0.name p1.name]
              else [])
          ++ [couplingSchemeElem t p0 p1])) couplingTags
      = [couplingSchemeElem t p0 p1] := by
  rw [findAll_top_gen hf couplingTags rfl rfl rfl rfl (by decide)
    rfl rfl rfl rfl]
  rw [filter_map_false (fun d => by
    cases d with
    | mk n ty => cases ty <;> rfl)]
  rw [filter_map_false (fun m => rfl)]
  have hparts : parts.filter (fun c => decide (c.tag ∈ couplingTags))
      = [] := by
    refine List.filter_eq_nil_iff.mpr ?_
    intro pe hpe
    simp only [(parts_tags hf pe hpe).1]
    decide
  have hcpl : [couplingSchemeElem t p0 p1].filter
      (fun c => decide (c.tag ∈ couplingTags))
      = [couplingSchemeElem t p0 p1] := by
    rw [List.filter_cons, cplElem_mem_couplingTags t p0 p1]
    rfl
  rw [hparts, hcpl]
  simp

/-- Left-hand members of a pointwise relation have related right partners. -/
theorem forall₂_mem_left {R : α → β → Prop} {l : List α} {ys : List β}
    (h : List.Forall₂ R l ys) {a : α} (ha : a ∈ l) : ∃ b ∈ ys, R a b := by
  induction h with
  | nil => simp at ha
  | cons h1 h2 ih =>
    rcases List.mem_cons.mp ha with ha1 | ha2
    · exact ⟨_, by simp, ha1 ▸ h1⟩
    · obtain ⟨b, hb, hrb⟩ := ih ha2
      exact ⟨b, by simp [hb], hrb⟩

/-! ## Claim theorems -/

/-- C2, counterexample: the model combining spec Example 2's dangling
mesh-data reference (`Pressure` undeclared in mesh `FluidMesh`) with spec
Example 3's negative `time_window_size` does not produce exactly two errors in
one validator run. -/
theorem C2_two_violations_not_two_errors :
    (validationErrors exC2).length ≠ 2 := by decide

/-- C2, amended: one validator run reports only the first violated check, and
dangling mesh-data references are not among the checks at all: the combined
Example 2 + Example 3 input yields exactly the one non-positive-time-window
error, and the dangling reference alone yields zero errors. -/
theorem C2_first_error_only :
    validationErrors exC2 = ["Time window size must be positive"]
      ∧ validationErrors exC2pos = [] := by decide

/-- C4: evaluation of the code at the spec's Example 1.  The pydantic schema
layer rejects the topology — `validate_data_consistency` fires on participant
`Fluid`, whose `read_data` is empty even though its `write_data` is the
non-empty `["Temperature"]` (contradicting the validator's own message
"must have at least one read or write data") — while the semantic validator
finds no error in the model and the emitted document has exactly the shape the
claim lists: one `data:vector` element, one `mesh` element with one `use-data`
child, two `participant` elements, one `m2n:sockets` element, one
`coupling-scheme:serial-explicit` element with a `participants` child
`first="Fluid" second="Solid"`. -/
theorem C4_example1_rejected_by_schema :
    TopologyConfig.schemaOk example1 = false
      ∧ ParticipantConfig.schemaOk fluidP = false
      ∧ fluidP.write_data = ["Temperature"]
      ∧ validateErr example1 = none
      ∧ (generatePreciceConfig example1).map
          (fun d => countTag d ⟨some "data", "vector"⟩) = some 1
      ∧ (generatePreciceConfig example1).map
          (fun d => countTag d ⟨none, "mesh"⟩) = some 1
      ∧ (generatePreciceConfig example1).bind
          (fun d => (findTag d [⟨none, "mesh"⟩]).map
            (fun m => (findAllTags m [⟨none, "use-data"⟩]).length)) = some 1
      ∧ (generatePreciceConfig example1).map
          (fun d => countTag d ⟨none, "participant"⟩) = some 2
      ∧ (generatePreciceConfig example1).map
          (fun d => countTag d ⟨some "m2n", "sockets"⟩) = some 1
      ∧ (generatePreciceConfig example1).map
          (fun d => countTag d ⟨some "coupling-scheme", "serial-explicit"⟩)
          = some 1
      ∧ (generatePreciceConfig example1).bind
          (fun d => (findTag d couplingTags).bind
            (fun ce => (findTag ce [⟨none, "participants"⟩]).map XElem.attrs))
          = some [("first", Val.str "Fluid"), ("second", Val.str "Solid")] := by
  decide

/-- C6, counterexample: a topology with two data declarations both named
`Temperature` passes the schema layer and the semantic validator — data-name
uniqueness is checked nowhere. -/
theorem C6_duplicate_data_names_accepted :
    TopologyConfig.schemaOk dupDataTop = true
      ∧ validateErr dupDataTop = none
      ∧ (dupDataTop.data.map DataConfig.name).dedup.length
          ≠ dupDataTop.data.length := by decide

/-- C6, amended: the uniqueness checks that do run cover participant names and
mesh names only — every topology accepted by the schema layer has
pairwise-distinct participant names and mesh names (nothing constrains data
names). -/
theorem C6_participant_and_mesh_names_unique (t : TopologyConfig)
    (h : TopologyConfig.schemaOk t = true) :
    (t.participants.map ParticipantConfig.name).Nodup
      ∧ (t.meshes.map MeshConfig.name).Nodup := by
  simp only [TopologyConfig.schemaOk, Bool.and_eq_true, beq_iff_eq] at h
  obtain ⟨⟨-, hp⟩, hm⟩ := h
  constructor
  · exact nodup_of_dedup_length (by simpa using hp)
  · exact nodup_of_dedup_length (by simpa using hm)

/-- C6, witness: the schema-valid `baseTop` instantiates the amended
uniqueness statement. -/
theorem C6_witness :
    TopologyConfig.schemaOk baseTop = true
      ∧ ((baseTop.participants.map ParticipantConfig.name).Nodup
          ∧ (baseTop.meshes.map MeshConfig.name).Nodup) :=
  ⟨by decide, C6_participant_and_mesh_names_unique baseTop (by decide)⟩

/-- C7, counterexample: a coupling scheme listing the same participant twice,
and one listing three names, are both accepted by the schema layer and the
semantic validator — neither the exactly-two nor the distinctness requirement
is enforced. -/
theorem C7_repeated_and_triple_accepted :
    (TopologyConfig.schemaOk repPartTop = true
        ∧ validateErr repPartTop = none
        ∧ repPartTop.coupling.participants = ["Fluid", "Fluid"])
      ∧ (TopologyConfig.schemaOk triPartTop = true
          ∧ validateErr triPartTop = none
          ∧ triPartTop.coupling.participants.length = 3) := by decide

/-- C8, counterexample: on a document holding the legacy values
`mapping_type = 1`, `coupling.type = 2` and `data type "scalar"`, the caller's
document after `_convert_enums` (which assigns into the caller's nested
dictionaries and returns the same object) differs from the original. -/
theorem C8_normalizer_mutates_caller_doc :
    convertEnums legacyDoc ≠ legacyDoc := by decide

/-- The mapping-type table lookup always lands on a canonical enum. -/
theorem convertMappingVal_canon (v : RawMappingVal) :
    ∃ m, convertMappingVal v = .canon m := by
  unfold convertMappingVal
  split <;> exact ⟨_, rfl⟩

/-- The coupling-type table lookup always lands on a canonical enum. -/
theorem convertCouplingVal_canon (v : RawCouplingVal) :
    ∃ k, convertCouplingVal v = .canon k := by
  unfold convertCouplingVal
  split <;> exact ⟨_, rfl⟩

/-- The data-type table lookup always lands on a canonical enum. -/
theorem convertDataVal_canon (v : RawDataVal) :
    ∃ k, convertDataVal v = .canon k := by
  unfold convertDataVal
  split
  · split <;> first
      | exact ⟨_, rfl⟩
      | (split <;> first | exact ⟨_, rfl⟩ | (split <;> exact ⟨_, rfl⟩))
  · exact ⟨_, rfl⟩

/-- C8, amended: `_convert_enums` normalizes the document in place — the
caller's document after the call (which is the value the function computes and
returns) has every present `mapping_type`, `coupling.type` and data-type slot
holding a canonical enum; the original values are not retained. -/
theorem C8_convertEnums_normalizes (d : RawTopologyDoc) :
    (convertEnums d).normalized := by
  obtain ⟨ps, c, da⟩ := d
  refine ⟨?_, ?_, ?_⟩
  · intro ps₂ hps p hp v hv
    cases ps with
    | none => simp [convertEnums] at hps
    | some l =>
      simp only [convertEnums, Option.map_some', Option.mem_def,
        Option.some_inj] at hps
      subst hps
      simp only [List.mem_map] at hp
      obtain ⟨q, -, hq⟩ := hp
      subst hq
      cases hqq : q.mapping_type with
      | none => simp [hqq, Option.mem_def] at hv
      | some w =>
        simp only [hqq, Option.map_some', Option.mem_def, Option.some_inj] at hv
        exact hv ▸ convertMappingVal_canon w
  · intro c₂ hc v hv
    cases c with
    | none => simp [convertEnums] at hc
    | some c₀ =>
      simp only [convertEnums, Option.map_some', Option.mem_def,
        Option.some_inj] at hc
      subst hc
      cases hcc : c₀.type with
      | none => simp [hcc, Option.mem_def] at hv
      | some w =>
        simp only [hcc, Option.map_some', Option.mem_def, Option.some_inj] at hv
        exact hv ▸ convertCouplingVal_canon w
  · intro ds hds x hx v hv
    cases da with
    | none => simp [convertEnums] at hds
    | some l =>
      simp only [convertEnums, Option.map_some', Option.mem_def,
        Option.some_inj] at hds
      subst hds
      simp only [List.mem_map] at hx
      obtain ⟨q, -, hq⟩ := hx
      subst hq
      cases hqq : q.type with
      | none => simp [hqq, Option.mem_def] at hv
      | some w =>
        simp only [hqq, Option.map_some', Option.mem_def, Option.some_inj] at hv
        exact hv ▸ convertDataVal_canon w

/-- C7, amended: what the two validation layers do enforce about the coupling
participant list is a lower bound of two entries (schema layer) and membership
of every entry in the topology's participant names (semantic layer); neither
exactly-two nor distinctness is checked. -/
theorem C7_at_least_two_and_subset (t : TopologyConfig)
    (hs : TopologyConfig.schemaOk t = true) (hv : validateErr t = none) :
    2 ≤ t.coupling.participants.length
      ∧ ∀ x ∈ t.coupling.participants,
          x ∈ t.participants.map ParticipantConfig.name := by
  constructor
  · simp only [TopologyConfig.schemaOk, CouplingConfig.schemaOk,
      Bool.and_eq_true, decide_eq_true_eq] at hs
    exact hs.1.1.2.2
  · simp only [validateErr, firstSome_eq_none, List.mem_cons,
      List.not_mem_nil, or_false, forall_eq_or_imp, forall_eq,
      ite_some_eq_none, not_not] at hv
    intro x hx
    have hall := hv.2.2.2.2.1
    rw [List.all_eq_true] at hall
    have := hall x hx
    simpa using this

/-- C7, witness: `repPartTop` instantiates the amended statement. -/
theorem C7_witness :
    TopologyConfig.schemaOk repPartTop = true
      ∧ validateErr repPartTop = none
      ∧ (2 ≤ repPartTop.coupling.participants.length
          ∧ ∀ x ∈ repPartTop.coupling.participants,
              x ∈ repPartTop.participants.map ParticipantConfig.name) :=
  ⟨by decide, by decide,
    C7_at_least_two_and_subset repPartTop (by decide) (by decide)⟩

/-- C1, counterexample: `baseTop` passes the Semantic Validator and its
emission succeeds, yet reading the emitted document back yields no model at
all — the reader's first extraction step, `_extract_data`, searches with a
path whose prefix `data` is unbound in the converter's namespace map, so
`ElementTree` raises `SyntaxError` while compiling the path; hence
`Reader(Emitter(M))` is not semantically equal to `M` (there is no read-back
model to compare). -/
theorem C1_roundtrip_yields_no_model :
    validateErr baseTop = none
      ∧ (generatePreciceConfig baseTop).isSome = true
      ∧ (generatePreciceConfig baseTop).map readTopology
          = some (.error (prefixErr "data")) :=
  ⟨by decide, rfl, rfl⟩

/-- C3, counterexample: for the validated `swappedTop` (coupling participants
`["Solid", "Fluid"]`), the emitted `participants` element carries
`first="Fluid" second="Solid"` — the attributes come from
`topology.participants[0]`/`[1]`, not from `coupling.participants`. -/
theorem C3_first_second_not_from_coupling_list :
    validateErr swappedTop = none
      ∧ swappedTop.coupling.participants = ["Solid", "Fluid"]
      ∧ (generatePreciceConfig swappedTop).bind
          (fun d => (findTag d couplingTags).bind
            (fun ce => (findTag ce [⟨none, "participants"⟩]).map XElem.attrs))
          = some [("first", Val.str "Fluid"), ("second", Val.str "Solid")]
      ∧ [(("first" : String), Val.str "Fluid"), ("second", Val.str "Solid")]
          ≠ [("first", Val.str "Solid"), ("second", Val.str "Fluid")] := by
  decide

/-- C5, counterexample: `exC5` passes both validation layers, yet emission
fails — participant `A` receives mesh `M2`, which exists but which no
participant provides, so the emitter's provider lookup raises StopIteration. -/
theorem C5_emission_fails_on_validated_model :
    TopologyConfig.schemaOk exC5 = true
      ∧ validateErr exC5 = none
      ∧ (generatePreciceConfig exC5).isNone = true := by decide

/-- C5, amended: on a validated model in which every received mesh has a
providing participant, emission succeeds, and each entry of a participant's
`receives_meshes` yields a `receive-mesh` child whose producer attribute
(literally named `_from`, after the Python keyword) carries the name of the
first participant in declaration order that provides the mesh. -/
theorem C5_emission_with_providers (t : TopologyConfig)
    (hv : validateErr t = none)
    (hprov : ∀ p ∈ t.participants, ∀ r ∈ p.receives_meshes,
      (providerFor t r).isSome = true) :
    (generatePreciceConfig t).isSome = true
      ∧ ∀ p ∈ t.participants, ∃ pe, emitParticipant t p = some pe
          ∧ ∀ r ∈ p.receives_meshes, ∃ q, providerFor t r = some q
              ∧ q ∈ t.participants ∧ q.provides_mesh = r
              ∧ recvElem r q.name ∈ pe.children := by
  have hemit : ∀ p ∈ t.participants, ∃ pe, emitParticipant t p = some pe := by
    intro p hp
    obtain ⟨recvs, hrecvs⟩ := mapM_option_some
      (f := fun r => (providerFor t r).map (fun q => recvElem r q.name))
      (l := p.receives_meshes)
      (fun r hr => by simpa using hprov p hp r hr)
    exact ⟨_, by rw [emitParticipant, hrecvs]; rfl⟩
  constructor
  · obtain ⟨parts, hparts⟩ := mapM_option_some
      (f := emitParticipant t) (l := t.participants)
      (fun p hp => by
        obtain ⟨pe, hpe⟩ := hemit p hp
        simp [hpe])
    have hlen : 2 ≤ t.participants.length := by
      simp only [validateErr, firstSome_eq_none, List.mem_cons,
        List.not_mem_nil, or_false, forall_eq_or_imp, forall_eq,
        ite_some_eq_none, not_not] at hv
      omega
    have h0 : (t.participants[0]?).isSome = true := by
      rw [List.getElem?_eq_getElem (by omega)]
      rfl
    have h1 : (t.participants[1]?).isSome = true := by
      rw [List.getElem?_eq_getElem (by omega)]
      rfl
    obtain ⟨p0, hp0⟩ := Option.isSome_iff_exists.mp h0
    obtain ⟨p1, hp1⟩ := Option.isSome_iff_exists.mp h1
    rw [generatePreciceConfig, hparts, hp0, hp1]
    rfl
  · intro p hp
    obtain ⟨pe, hpe⟩ := hemit p hp
    obtain ⟨recvs, hrecvs, rfl⟩ := emitParticipant_some hpe
    refine ⟨_, hpe, ?_⟩
    intro r hr
    obtain ⟨y, hy, ⟨q, hq, rfl⟩⟩ := forall₂_mem_left hrecvs hr
    refine ⟨q, hq, List.mem_of_find?_eq_some hq, ?_, ?_⟩
    · have := List.find?_some hq
      simpa using this
    · simp only [XElem.children]
      simp [hy]

/-- C5, witness: `baseTop` instantiates the amended emission statement. -/
theorem C5_witness :
    validateErr baseTop = none
      ∧ ((generatePreciceConfig baseTop).isSome = true
          ∧ ∀ p ∈ baseTop.participants, ∃ pe,
              emitParticipant baseTop p = some pe
              ∧ ∀ r ∈ p.receives_meshes, ∃ q, providerFor baseTop r = some q
                  ∧ q ∈ baseTop.participants ∧ q.provides_mesh = r
                  ∧ recvElem r q.name ∈ pe.children) :=
  ⟨by decide, C5_emission_with_providers baseTop (by decide) (by decide)⟩

/-- C9: reading a document that contains none of the four coupling-scheme
elements is a hard error and never produces a topology.  The source intends
the missing element to raise `ValueError("No coupling scheme found in XML")`
(xml_to_topology.py lines 93–94); in actual execution `_extract_coupling`
fails even earlier — its search path uses the prefix `coupling-scheme`,
unbound in the converter's namespace map, so path compilation raises
`SyntaxError` on every document — and `generate_topology_yaml` propagates the
exception (already from `_extract_data`), so under either reading no
`TopologyModel` is produced. -/
theorem C9_missing_coupling_scheme_fails (doc : XElem)
    (h : findTag doc couplingTags = none) :
    extractCoupling doc = .error (prefixErr "coupling-scheme")
      ∧ ∀ m, readTopology doc ≠ .ok m := by
  refine ⟨rfl, ?_⟩
  intro m hm
  simp only [readTopology] at hm
  rw [show extractData doc = .error (prefixErr "data") from rfl] at hm
  simp [Bind.bind, Except.bind] at hm

/-- C9, witness: a concrete document holding only a mesh has no
coupling-scheme element and cannot be read. -/
theorem C9_witness :
    findTag w9doc couplingTags = none
      ∧ (extractCoupling w9doc = .error (prefixErr "coupling-scheme")
          ∧ ∀ m, readTopology w9doc ≠ .ok m) :=
  ⟨rfl, C9_missing_coupling_scheme_fails w9doc rfl⟩

/-- C10, counterexample: `w10doc` holds a coupling-scheme element that lacks
`time-window-size`, `max-time` and `participants` children — an input the
claim says is read with the defaults `0.1`, `10.0` and `[]` — but
`_extract_coupling` raises `SyntaxError` on it (as on every document),
because its search path uses the prefix `coupling-scheme`, unbound in the
converter's namespace map; so none of the coupling defaults is ever
observed. -/
theorem C10_coupling_defaults_unreachable :
    findTag w10doc couplingTags = some w10cpl
      ∧ findTag w10cpl [⟨none, "time-window-size"⟩] = none
      ∧ findTag w10cpl [⟨none, "max-time"⟩] = none
      ∧ findTag w10cpl [⟨none, "participants"⟩] = none
      ∧ extractCoupling w10doc = .error (prefixErr "coupling-scheme")
      ∧ readTopology w10doc = .error (prefixErr "data") :=
  ⟨rfl, rfl, rfl, rfl, rfl, rfl⟩

/-- C10, amended: of the reader's silent defaults only the mesh one is live —
a `mesh` element lacking a `dimensions` attribute is read with dimensions 3
(`int(mesh_elem.get('dimensions', 3))`; the `.//mesh` and `.//use-data` paths
are unprefixed and compile) — while the coupling-scheme defaults
(`time_window_size = 0.1`, `max_time = 10.0`, empty participant list) are
dead code: `_extract_coupling` raises `SyntaxError` on every document before
reaching them. -/
theorem C10_mesh_default_live_coupling_defaults_dead :
    (∀ e : XElem, getAttr e "dimensions" = none →
      mkRawMesh e = .ok ⟨getAttr e "name", 3,
        (findAllTags e [⟨none, "use-data"⟩]).map (fun u => getAttr u "name")⟩)
      ∧ ∀ root : XElem,
          extractCoupling root = .error (prefixErr "coupling-scheme") := by
  constructor
  · intro e h
    simp only [mkRawMesh, h, readDim]
    rfl
  · intro root
    rfl

/-- C10, witness: the amended statement at a dimensionless mesh element and at
`w10doc`. -/
theorem C10_mesh_default_witness :
    getAttr meshNoDim "dimensions" = none
      ∧ mkRawMesh meshNoDim = .ok ⟨some (Val.str "M"), 3, []⟩
      ∧ extractCoupling w10doc = .error (prefixErr "coupling-scheme") := by
  refine ⟨rfl, ?_, C10_mesh_default_live_coupling_defaults_dead.2 w10doc⟩
  rw [C10_mesh_default_live_coupling_defaults_dead.1 meshNoDim rfl]
  rfl

/-- C1, amended: for every model that passes the Semantic Validator and whose
emission succeeds, reading the emitted document fails — `generate_topology_yaml`
evaluates `_extract_data` first, and that call's `findall` path uses the
namespace prefix `data`, which is unbound in the converter's map, so
`ElementTree` raises `SyntaxError` while compiling the path, on every
document — hence `Reader(Emitter(M))` never yields a `TopologyModel`, let
alone one semantically equal to `M`. -/
theorem C1_reader_fails_on_emitted_document (t : TopologyConfig) (doc : XElem)
    (hv : validateErr t = none)
    (hgen : generatePreciceConfig t = some doc) :
    readTopology doc = .error (prefixErr "data")
      ∧ ∀ m, readTopology doc ≠ .ok m := by
  have hr : readTopology doc = .error (prefixErr "data") := by
    simp only [readTopology]
    rw [show extractData doc = .error (prefixErr "data") from rfl]
    rfl
  exact ⟨hr, fun m hm => by rw [hr] at hm; exact Except.noConfusion hm⟩

/-- C1, witness: the amended statement at the validated `baseTop` and its
emitted document. -/
theorem C1_roundtrip_witness :
    validateErr baseTop = none
      ∧ (generatePreciceConfig baseTop).map readTopology
          = some (.error (prefixErr "data")) := by
  refine ⟨by decide, ?_⟩
  obtain ⟨doc, hdoc⟩ := Option.isSome_iff_exists.mp
    (show (generatePreciceConfig baseTop).isSome = true from by decide)
  rw [hdoc, Option.map_some',
    (C1_reader_fails_on_emitted_document baseTop doc (by decide) hdoc).1]

/-- C3, amended: the emitted `participants` child carries
`first = participants[0].name` and `second = participants[1].name` from the
topology's declaration list (not from `coupling.participants`). -/
theorem C3_first_second_from_declaration_list (t : TopologyConfig)
    (doc : XElem) (p0 p1 : ParticipantConfig)
    (hgen : generatePreciceConfig t = some doc)
    (h0 : t.participants[0]? = some p0)
    (h1 : t.participants[1]? = some p1) :
    (findTag doc couplingTags).bind
        (fun ce => (findTag ce [⟨none, "participants"⟩]).map XElem.attrs)
      = some [("first", .str p0.name), ("second", .str p1.name)] := by
  obtain ⟨parts, q0, q1, hf, hq0, hq1, rfl⟩ := generate_some hgen
  obtain rfl : q0 = p0 := Option.some_inj.mp (hq0.symm.trans h0)
  obtain rfl : q1 = p1 := Option.some_inj.mp (hq1.symm.trans h1)
  have hft : findTag (XElem.mk ⟨none, "precice-configuration"⟩
      [("xmlns", .str nsURI)]
      (logElem :: t.data.map dataElem ++ t.meshes.map meshElem ++ parts
        ++ (if t.participants.length > 1 then [m2nElem q0.name q1.name]
            else [])
        ++ [couplingSchemeElem t q0 q1])) couplingTags
      = some (couplingSchemeElem t q0 q1) := by
    rw [findTag, findAll_cpl hf]
    rfl
  have hdesc : descE (couplingSchemeElem t q0 q1)
      = [twsElem t.coupling.time_window_size,
          maxTimeElem t.coupling.max_time,
          participantsElem q0.name q1.name]
        ++ t.coupling.exchanges.map exchangeElem := by
    rw [descE_children]
    refine descL_leaves ?_
    intro c hc
    simp only [couplingSchemeElem, XElem.children, List.mem_append,
      List.mem_cons, List.not_mem_nil, or_false, List.mem_map] at hc
    rcases hc with (rfl | rfl | rfl) | ⟨e, -, rfl⟩ <;> rfl
  have hpts : findTag (couplingSchemeElem t q0 q1) [⟨none, "participants"⟩]
      = some (participantsElem q0.name q1.name) := by
    rw [findTag, findAllTags, hdesc, List.filter_append,
      filter_map_false (fun e => rfl)]
    rfl
  rw [hft, Option.some_bind, hpts]
  rfl

/-- C3, witness: for the validated `swappedTop`, the amended statement yields
`first="Fluid" second="Solid"` — the declaration-order pair. -/
theorem C3_witness :
    (generatePreciceConfig swappedTop).bind (fun doc =>
        (findTag doc couplingTags).bind
          (fun ce => (findTag ce [⟨none, "participants"⟩]).map XElem.attrs))
      = some [("first", Val.str "Fluid"), ("second", Val.str "Solid")] := by
  obtain ⟨doc, hdoc⟩ := Option.isSome_iff_exists.mp
    (show (generatePreciceConfig swappedTop).isSome = true from by decide)
  rw [hdoc, Option.some_bind]
  exact C3_first_second_from_declaration_list swappedTop doc
    ⟨"Fluid", "FluidMesh", [], ["Temperature"], ["Temperature"], .RBF,
      "consistent"⟩
    ⟨"Solid", "SolidMesh", ["FluidMesh"], ["Temperature"], ["Temperature"],
      .RBF, "consistent"⟩
    hdoc rfl rfl

end Controller
